import Mathlib

/-!
Shallow embedding of the janus-react-wrapper bridge component
(src/src/App.tsx, main component; the near-identical copy in
src/unnamed/part_000 is noted where it differs).

The component is a message relay between a host WebView container and a
SIP signaling plugin handle.  We embed its handlers as pure functions
from an explicit application state (the React state hooks) to a new
state together with the list of messages posted to the host and the
list of requests sent to the plugin handle.  Asynchronous callback
outcomes (offer creation, remote JSEP handling, container delivery)
are supplied as explicit oracle arguments.
-/

namespace JanusWrapper

/-- Registration credential fields (interface RegistrationPayload).
Absent JSON fields are modelled as `none`. -/
structure RegistrationPayload where
  username : Option String := none
  displayName : Option String := none
  authuser : Option String := none
  secret : Option String := none
  proxy : Option String := none
  userAgent : Option String := none
  register : Option Bool := none
deriving Repr, DecidableEq

/-- Error detail object carried by some outbound payloads. -/
structure ErrorDetails where
  code : Option Int := none
  message : String := ""
deriving Repr, DecidableEq

/-- Outbound payload fields (type WebViewPayload).  Absent fields are
`none`; the source never sends a field we do not model here on the
messages the claims are about. -/
structure WebViewPayload where
  phoneNumber : Option String := none
  error : Option String := none
  status : Option String := none
  callState : Option String := none
  errorDetails : Option ErrorDetails := none
  kind : Option String := none
  state : Option String := none
  fromUser : Option String := none
  hasAudio : Option Bool := none
  hasVideo : Option Bool := none
  callId : Option String := none
  reason : Option String := none
  code : Option Int := none
  trackId : Option String := none
  mid : Option String := none
  isConnected : Option Bool := none
deriving Repr, DecidableEq

/-- An outbound message posted to the host container
(type WebViewMessage). -/
structure WebViewMessage where
  type : String
  payload : WebViewPayload
deriving Repr, DecidableEq

/-- An inbound host message as consumed by handleWebViewMessage.  The
runtime JSON object may carry a phone number and, for REGISTER_SIP,
credential fields (the source casts the payload to
RegistrationPayload). -/
structure InboundMessage where
  type : String
  phoneNumber : Option String := none
  registration : RegistrationPayload := {}
deriving Repr, DecidableEq

/-- A request sent to the SIP plugin handle via sipPlugin.send. -/
inductive PluginRequest where
  | register (username displayName authuser secret proxy userAgent : Option String)
  | unregister
  | call (uri : String) (userAgent : String) (xCallType : String)
  | hangup
deriving Repr, DecidableEq

/-- The uri field of a call request, if the request is a call. -/
def PluginRequest.uri? : PluginRequest → Option String
  | .call uri _ _ => some uri
  | _ => none

/-- The React state of the component.  `sipPlugin` records whether a
plugin handle is attached (the handle itself is opaque); media streams
are opaque and represented by a numeric tag.  `callState` is a string
because the source assigns arbitrary plugin-reported event names to it
(the TypeScript union is erased at runtime). -/
structure AppState where
  sipPlugin : Bool := false
  pluginCallId : Option String := none
  callState : String := "not_started"
  currentCall : Option String := none
  isRegistered : Bool := false
  localTracks : List (String × Nat) := []
  remoteTracks : List (String × Nat) := []
  localVideos : Int := 0
  remoteVideos : Int := 0
  sipCredentials : RegistrationPayload := {}
deriving Repr, DecidableEq

/-- Result of a handler: new state, messages posted to the host, and
requests sent to the plugin, in emission order within each list. -/
abbrev HandlerResult := AppState × List WebViewMessage × List PluginRequest

/-- JavaScript falsiness of an optional string: undefined and the
empty string are falsy. -/
def jsFalsyStr : Option String → Bool
  | none => true
  | some s => s = ""

/-- Interpolating a possibly-undefined string into a template literal:
undefined renders as the string "undefined". -/
def jsStr (o : Option String) : String := o.getD "undefined"

/-- JavaScript `a || b` for an optional string `a`: falsy (absent or
empty) falls through to the default. -/
def jsOrDefault (o : Option String) (d : String) : String :=
  match o with
  | none => d
  | some s => if s = "" then d else s

/-- The spread merge `\x7b...sipCredentials, ...params, register: true\x7d`
of handleRegistration: fields present on params override stored ones,
absent fields keep the stored value, and register is forced to true. -/
def mergeRegistration (old : RegistrationPayload) :
    Option RegistrationPayload → RegistrationPayload
  | none => { old with register := some true }
  | some p =>
    { username := p.username <|> old.username
      displayName := p.displayName <|> old.displayName
      authuser := p.authuser <|> old.authuser
      secret := p.secret <|> old.secret
      proxy := p.proxy <|> old.proxy
      userAgent := p.userAgent <|> old.userAgent
      register := some true }

/-- handleRegistration (src/src/App.tsx lines 184-230). -/
def handleRegistration (s : AppState) (params : Option RegistrationPayload) :
    HandlerResult :=
  if !s.sipPlugin then
    (s, [⟨"REGISTRATION_ERROR", { error := some "SIP plugin not found" }⟩], [])
  else if s.isRegistered then
    (s, [⟨"REGISTRATION_ERROR",
          { error := some "Already registered with SIP server" }⟩], [])
  else
    let registrationParams := mergeRegistration s.sipCredentials params
    ({ s with callState := "registering", sipCredentials := registrationParams },
     [],
     [.register registrationParams.username registrationParams.displayName
        registrationParams.authuser registrationParams.secret
        registrationParams.proxy registrationParams.userAgent])

/-- handleUnregister (src/src/App.tsx lines 233-241). -/
def handleUnregister (s : AppState) : HandlerResult :=
  if !s.sipPlugin || !s.isRegistered then (s, [], [])
  else (s, [], [.unregister])

/-- If sep is a prefix of s, the remainder of s after it. -/
def dropPre : List Char → List Char → Option (List Char)
  | [], s => some s
  | _ :: _, [] => none
  | c :: cs, d :: ds => if c = d then dropPre cs ds else none

/-- Worker for jsSplit: scan the remaining characters, splitting at
each non-overlapping occurrence of sep, left to right.  The fuel
bounds the recursion; with a non-empty sep and fuel at least the
length of the remaining text, the fuel-exhausted fallback is
unreachable. -/
def jsSplitAux (sep : List Char) (acc : List Char) :
    Nat → List Char → List (List Char)
  | _, [] => [acc.reverse]
  | 0, s => [acc.reverse ++ s]
  | fuel + 1, c :: rest =>
    match dropPre sep (c :: rest) with
    | some rem => acc.reverse :: jsSplitAux sep [] fuel rem
    | none => jsSplitAux sep (c :: acc) fuel rest

/-- JavaScript String.prototype.split with a non-empty string
separator (the only form the source uses): the pieces of s between
consecutive occurrences of sep. -/
def jsSplit (s sep : String) : List String :=
  (jsSplitAux sep.data [] s.data.length s.data).map String.mk

/-- The domain derivation of makeCall:
sipCredentials.proxy?.split("sip:")[1].  Index 1 may be out of range,
yielding undefined (`none`). -/
def proxyDomain (proxy : Option String) : Option String :=
  proxy.bind fun p => (jsSplit p "sip:").get? 1

/-- makeCall (src/src/App.tsx lines 243-319).  The `offer` oracle is
the outcome of sipPlugin.createOffer: on success the call request is
sent and CALL_INITIATED posted; on error CALL_ERROR is posted and the
call state set to error. -/
def makeCall (s : AppState) (phoneNumber : Option String)
    (offer : Except String Unit) : HandlerResult :=
  if !s.sipPlugin then
    ({ s with callState := "error" },
     [⟨"CALL_ERROR",
        { error := some "SIP plugin not found", callState := some "error" }⟩], [])
  else if jsFalsyStr phoneNumber then
    ({ s with callState := "error" },
     [⟨"CALL_ERROR",
        { error := some "Phone number is required", callState := some "error" }⟩], [])
  else
    let n := phoneNumber.getD ""
    let domain := proxyDomain s.sipCredentials.proxy
    let s1 := { s with currentCall := some n, callState := "calling" }
    match offer with
    | .ok _ =>
      (s1,
       [⟨"CALL_INITIATED",
          { phoneNumber := some n, callState := some "calling" }⟩],
       [.call ("sip:" ++ n ++ "@" ++ jsStr domain)
          (jsOrDefault s.sipCredentials.userAgent "Janus WebRTC Client")
          "audio"])
    | .error e =>
      ({ s1 with callState := "error" },
       [⟨"CALL_ERROR", { error := some e, callState := some "error" }⟩], [])

/-- handleWebViewMessage (src/src/App.tsx lines 322-355): the inbound
dispatch table keyed by message type. -/
def handleWebViewMessage (s : AppState) (msg : InboundMessage)
    (offer : Except String Unit) : HandlerResult :=
  if msg.type = "WEBVIEW_READY" then (s, [], [])
  else if msg.type = "REGISTER_SIP" then
    handleRegistration s (some msg.registration)
  else if msg.type = "UNREGISTER_SIP" then handleUnregister s
  else if msg.type = "MAKE_CALL" then
    if !s.isRegistered then
      (s, [⟨"CALL_ERROR",
            { error := some "Not registered with SIP server" }⟩], [])
    else makeCall s msg.phoneNumber offer
  else if msg.type = "END_CALL" then
    if s.sipPlugin && s.currentCall.isSome then (s, [], [.hangup])
    else (s, [], [])
  else (s, [], [])

/-- The result object of a SIP plugin message
(interface SipPluginResult). -/
structure SipPluginResult where
  event : Option String := none
  username : Option String := none
  reason : Option String := none
  code : Option Int := none
deriving Repr, DecidableEq

/-- A JSEP negotiation payload; only the sdp text is inspected. -/
structure JSEP where
  sdp : Option String := none
deriving Repr, DecidableEq

/-- A plugin message as received by onmessage (JanusJS.Message, the
fields the handler reads). -/
structure SipMsg where
  result : Option SipPluginResult := none
  error : Option String := none
  callId : Option String := none
deriving Repr, DecidableEq

/-- JavaScript s.indexOf(sub) > -1 for a non-empty substring: sub
occurs in s exactly when splitting on it yields more than one piece. -/
def containsSub (s sub : String) : Bool := (jsSplit s sub).length > 1

/-- handleSipMessage (src/src/App.tsx lines 374-508).  `jsepOutcome`
is the outcome of sipPlugin.handleRemoteJsep on the trailing jsep
block; the handler sends no plugin request, so the result is state
plus host messages. -/
def handleSipMessage (s : AppState) (msg : SipMsg) (jsep : Option JSEP)
    (jsepOutcome : Except String Unit) :
    AppState × List WebViewMessage :=
  let ev := msg.result.bind fun r => r.event
  let s1 := match ev with
    | some e => { s with callState := e }
    | none => s
  match msg.error with
  | some err =>
    ({ s1 with callState := "error" },
     [⟨"SIP_ERROR", { error := some err, callState := some "error" }⟩])
  | none =>
    let step2 : AppState × List WebViewMessage :=
      match ev with
      | some "registered" =>
        ({ s1 with isRegistered := true },
         [⟨"REGISTRATION_SUCCESS", { status := some "registered" }⟩])
      | some "unregistered" =>
        ({ s1 with isRegistered := false },
         [⟨"UNREGISTERED", { status := some "unregistered" }⟩])
      | some "calling" =>
        (s1, [⟨"CALLING", { status := some "calling" }⟩])
      | some "incomingcall" =>
        let s2 := if s1.sipPlugin then { s1 with pluginCallId := msg.callId }
                  else s1
        let sdpOpt := (jsep.bind fun j => j.sdp).filter fun t => t ≠ ""
        let doAudio := match sdpOpt with
          | some sdp => containsSub sdp "m=audio "
          | none => true
        let doVideo := match sdpOpt with
          | some sdp => containsSub sdp "m=video "
          | none => false
        (s2, [⟨"INCOMING_CALL",
               { fromUser := msg.result.bind fun r => r.username
                 hasAudio := some doAudio
                 hasVideo := some doVideo
                 callId := msg.callId }⟩])
      | some "accepting" =>
        (s1, [⟨"ACCEPTING", { status := some "accepting" }⟩])
      | some "progress" =>
        (s1, [⟨"CALL_PROGRESS", { status := some "progress" }⟩])
      | some "accepted" =>
        (s1, [⟨"CALL_ACCEPTED", { status := some "accepted" }⟩])
      | some "hangup" =>
        ({ s1 with currentCall := none, callState := "ended" },
         [⟨"CALL_ENDED",
            { reason := msg.result.bind fun r => r.reason
              code := msg.result.bind fun r => r.code }⟩])
      | _ => (s1, [])
    let jsepMsgs : List WebViewMessage :=
      match jsep with
      | none => []
      | some _ =>
        if s.sipPlugin then
          match jsepOutcome with
          | .ok _ => [⟨"JSEP_SUCCESS", { callState := some "connected" }⟩]
          | .error e => [⟨"JSEP_ERROR", { error := some e }⟩]
        else []
    (step2.1, step2.2 ++ jsepMsgs)

/-- A JavaScript-object-like association list insert: assigning key k
keeps the key's original position when it exists, else appends. -/
def objInsert (m : List (String × Nat)) (k : String) (v : Nat) :
    List (String × Nat) :=
  if m.any fun kv => kv.1 = k then
    m.map fun kv => if kv.1 = k then (k, v) else kv
  else m ++ [(k, v)]

/-- delete obj[k]: every binding of key k is removed. -/
def objDelete (m : List (String × Nat)) (k : String) : List (String × Nat) :=
  m.filter fun kv => kv.1 ≠ k

/-- Registry lookup: the stream stored at key k, if any. -/
def lookupTrack (m : List (String × Nat)) (k : String) : Option Nat :=
  (m.find? fun kv => kv.1 = k).map fun kv => kv.2

/-- Number of registry entries stored at key k. -/
def countKey (m : List (String × Nat)) (k : String) : Nat :=
  (m.filter fun kv => kv.1 = k).length

/-- A media track as seen by the track callbacks: its identifier and
kind ("audio"/"video"). -/
structure Track where
  id : String
  kind : String
deriving Repr, DecidableEq

/-- track.id.replace(removing every brace character, code points 123
and 125). -/
def stripBraces (s : String) : String :=
  String.mk (s.data.filter fun c => c.toNat ≠ 123 ∧ c.toNat ≠ 125)

/-- onlocaltrack (src/src/App.tsx lines 601-649).  `stream` is the
opaque MediaStream built from the added track. -/
def onlocaltrack (s : AppState) (track : Track) (isOn : Bool) (stream : Nat) :
    AppState × List WebViewMessage :=
  let trackId := stripBraces track.id
  if !isOn then
    ({ s with
        localVideos := if track.kind = "video" then s.localVideos - 1
                       else s.localVideos
        localTracks := objDelete s.localTracks trackId },
     [])
  else
    ({ s with
        localTracks := objInsert s.localTracks trackId stream
        localVideos := if track.kind = "video" then s.localVideos + 1
                       else s.localVideos },
     [⟨"LOCAL_TRACK_READY",
        { kind := some track.kind
          trackId := some trackId
          state := some (if isOn then "added" else "removed") }⟩])

/-- onremotetrack (src/src/App.tsx lines 650-693), keyed by the
media-line identifier mid. -/
def onremotetrack (s : AppState) (track : Track) (mid : String)
    (isOn : Bool) (stream : Nat) : AppState × List WebViewMessage :=
  if !isOn then
    ({ s with
        remoteVideos := if track.kind = "video" then s.remoteVideos - 1
                        else s.remoteVideos
        remoteTracks := objDelete s.remoteTracks mid },
     [])
  else
    ({ s with
        remoteTracks := objInsert s.remoteTracks mid stream
        remoteVideos := if track.kind = "video" then s.remoteVideos + 1
                        else s.remoteVideos },
     [⟨"REMOTE_TRACK_READY",
        { kind := some track.kind
          mid := some mid
          state := some (if isOn then "added" else "removed") }⟩])

/-- One delivery attempt of sendToWebViewParent: the delay (ms) waited
before this attempt and the message object passed to it. -/
structure SendAttempt where
  delay : Nat
  message : WebViewMessage
deriving Repr, DecidableEq

/-- The attempt trace of sendToWebViewParent
(src/src/App.tsx lines 165-181).  `throws` says whether the postMessage
call of the idx-th attempt throws.  On a throw with retryCount > 0 the
same message object is re-sent after a 1000 ms setTimeout with
retryCount - 1; on a throw with retryCount = 0 the message is dropped
with no further action. -/
def sendRun (throws : Nat → Bool) (message : WebViewMessage) :
    Nat → Nat → List SendAttempt
  | idx, 0 => [⟨if idx = 0 then 0 else 1000, message⟩]
  | idx, r + 1 =>
    let att : SendAttempt := ⟨if idx = 0 then 0 else 1000, message⟩
    if throws idx then att :: sendRun throws message (idx + 1) r
    else [att]

/-- sendToWebViewParent entry point: default retryCount = 3. -/
def sendToWebViewParent (throws : Nat → Bool) (message : WebViewMessage) :
    List SendAttempt :=
  sendRun throws message 0 3

/-- MAX_RECONNECT_ATTEMPTS (src/src/App.tsx line 514). -/
def MAX_RECONNECT_ATTEMPTS : Nat := 3

/-- The fixed 5000 ms reconnect delay passed to setTimeout
(src/src/App.tsx line 555). -/
def RECONNECT_DELAY : Nat := 5000

/-- The Janus session error callback's retry decision
(src/src/App.tsx lines 550-556): given the current reconnectAttempts
counter, the new counter value and the delay of the retry scheduled,
if any. -/
def janusErrorStep (reconnectAttempts : Nat) : Nat × Option Nat :=
  if reconnectAttempts < MAX_RECONNECT_ATTEMPTS then
    (reconnectAttempts + 1, some RECONNECT_DELAY)
  else (reconnectAttempts, none)

/-- The delays of the retries scheduled in a run of n consecutive
session-creation failures starting from counter value
reconnectAttempts: each failure invokes the error callback; the run
continues only while a retry is scheduled (no retry means no further
initialization attempt, hence no further failure). -/
def retriesInRun : Nat → Nat → List Nat
  | 0, _ => []
  | n + 1, reconnectAttempts =>
    match janusErrorStep reconnectAttempts with
    | (a, some d) => d :: retriesInRun n a
    | (_, none) => []

/-- Accessor: the message type tag. -/
def WebViewMessage.tag (m : WebViewMessage) : String := m.type

/-! ## Helper lemmas for the track registry -/

theorem lookupTrack_objDelete (m : List (String × Nat)) (k : String) :
    lookupTrack (objDelete m k) k = none := by
  have hfind : ((objDelete m k).find? fun kv => kv.1 = k) = none := by
    rw [List.find?_eq_none]
    intro x hx
    simp only [objDelete, List.mem_filter] at hx
    simpa using hx.2
  simp [lookupTrack, hfind]

theorem countKey_objDelete (m : List (String × Nat)) (k : String) :
    countKey (objDelete m k) k = 0 := by
  simp only [countKey, List.length_eq_zero, List.filter_eq_nil_iff]
  intro a ha
  simp only [objDelete, List.mem_filter] at ha
  simpa using ha.2

theorem any_eq_false_of_countKey_eq_zero (m : List (String × Nat)) (k : String)
    (h : countKey m k = 0) : (m.any fun kv => kv.1 = k) = false := by
  simp only [countKey, List.length_eq_zero, List.filter_eq_nil_iff] at h
  simp only [List.any_eq_false]
  intro x hx
  simpa using h x hx

theorem countKey_objInsert_of_absent (m : List (String × Nat)) (k : String)
    (v : Nat) (h : countKey m k = 0) : countKey (objInsert m k v) k = 1 := by
  rw [objInsert, any_eq_false_of_countKey_eq_zero m k h]
  simp only [Bool.false_eq_true, if_false, countKey, List.filter_append,
    List.length_append]
  have : countKey m k = (m.filter fun kv => kv.1 = k).length := rfl
  simp [← this, h]

/-! ## Claim theorems -/

/-- Claim C1: in any state with isRegistered false, dispatching a
MAKE_CALL host message posts exactly one CALL_ERROR message, sends no
plugin request (in particular no call request and no offer creation),
and leaves the state unchanged. -/
theorem c1_make_call_before_register (s : AppState) (msg : InboundMessage)
    (offer : Except String Unit)
    (hreg : s.isRegistered = false) (htype : msg.type = "MAKE_CALL") :
    handleWebViewMessage s msg offer =
      (s, [⟨"CALL_ERROR",
            { error := some "Not registered with SIP server" }⟩], []) := by
  simp [handleWebViewMessage, htype, hreg]

/-- Witness for C1: the initial state is not registered; MAKE_CALL
yields exactly one CALL_ERROR and nothing else. -/
theorem c1_make_call_before_register_witness :
    handleWebViewMessage {} { type := "MAKE_CALL", phoneNumber := some "123" }
        (.ok ()) =
      ({}, [⟨"CALL_ERROR",
            { error := some "Not registered with SIP server" }⟩], []) :=
  c1_make_call_before_register {}
    { type := "MAKE_CALL", phoneNumber := some "123" } (.ok ()) rfl rfl

/-- Claim C2: with a plugin handle attached and isRegistered true,
handleRegistration posts exactly one REGISTRATION_ERROR message, sends
no plugin request, and leaves the state (credentials and call state
included) unchanged. -/
theorem c2_register_while_registered (s : AppState)
    (params : Option RegistrationPayload)
    (hplugin : s.sipPlugin = true) (hreg : s.isRegistered = true) :
    handleRegistration s params =
      (s, [⟨"REGISTRATION_ERROR",
            { error := some "Already registered with SIP server" }⟩], []) := by
  simp [handleRegistration, hplugin, hreg]

/-- Witness for C2 at a concrete registered state. -/
theorem c2_register_while_registered_witness :
    handleRegistration { sipPlugin := true, isRegistered := true }
        (some { username := some "u" }) =
      ({ sipPlugin := true, isRegistered := true },
       [⟨"REGISTRATION_ERROR",
          { error := some "Already registered with SIP server" }⟩], []) :=
  c2_register_while_registered { sipPlugin := true, isRegistered := true }
    (some { username := some "u" }) rfl rfl

/-- Claim C3: with stored proxy "sip:203.0.113.5:5080" and phone
number "5551234" (plugin attached, offer success), the single plugin
request sent is a call whose uri is exactly
"sip:5551234\x40203.0.113.5:5080". -/
theorem c3_call_uri_from_proxy (s : AppState)
    (hplugin : s.sipPlugin = true)
    (hproxy : s.sipCredentials.proxy = some "sip:203.0.113.5:5080") :
    ((makeCall s (some "5551234") (.ok ())).2.2).map PluginRequest.uri? =
      [some "sip:5551234@203.0.113.5:5080"] := by
  simp [makeCall, hplugin, hproxy, jsFalsyStr, proxyDomain, PluginRequest.uri?]
  decide

/-- Witness for C3 at a concrete state. -/
theorem c3_call_uri_from_proxy_witness :
    ((makeCall { sipPlugin := true,
                 sipCredentials := { proxy := some "sip:203.0.113.5:5080" } }
        (some "5551234") (.ok ())).2.2).map PluginRequest.uri? =
      [some "sip:5551234@203.0.113.5:5080"] :=
  c3_call_uri_from_proxy
    { sipPlugin := true,
      sipCredentials := { proxy := some "sip:203.0.113.5:5080" } }
    rfl rfl

/-- Claim C4: every plugin message whose error field is populated
yields exactly one host message, a SIP_ERROR carrying that error with
callState "error", and the resulting call state is "error". -/
theorem c4_error_event_single_sip_error (s : AppState) (msg : SipMsg)
    (jsep : Option JSEP) (jsepOutcome : Except String Unit) (err : String)
    (herr : msg.error = some err) :
    (handleSipMessage s msg jsep jsepOutcome).2 =
      [⟨"SIP_ERROR", { error := some err, callState := some "error" }⟩] ∧
    (handleSipMessage s msg jsep jsepOutcome).1.callState = "error" := by
  constructor <;> simp [handleSipMessage, herr]

/-- Witness for C4 at a concrete errored plugin message. -/
theorem c4_error_event_single_sip_error_witness :
    (handleSipMessage {} { error := some "boom" } none (.ok ())).2 =
      [⟨"SIP_ERROR", { error := some "boom", callState := some "error" }⟩] ∧
    (handleSipMessage {} { error := some "boom" } none (.ok ())).1.callState
      = "error" :=
  c4_error_event_single_sip_error {} { error := some "boom" } none (.ok ())
    "boom" rfl

/-- Claim C5: a track-removed event deletes the registry entry at its
identifier, and the sequence add, remove, add at one identifier leaves
exactly one registry entry at that identifier, for the local registry
(keyed by the brace-stripped track id) and the remote registry (keyed
by mid) alike. -/
theorem c5_track_registry_remove_readd (s : AppState) (t : Track)
    (mid : String) (v1 v2 w1 w2 : Nat) :
    lookupTrack ((onlocaltrack s t false v1).1.localTracks)
        (stripBraces t.id) = none ∧
    countKey ((onlocaltrack
        ((onlocaltrack ((onlocaltrack s t true v1).1) t false 0).1)
        t true v2).1.localTracks) (stripBraces t.id) = 1 ∧
    lookupTrack ((onremotetrack s t mid false w1).1.remoteTracks) mid = none ∧
    countKey ((onremotetrack
        ((onremotetrack ((onremotetrack s t mid true w1).1) t mid false 0).1)
        t mid true w2).1.remoteTracks) mid = 1 := by
  refine ⟨?_, ?_, ?_, ?_⟩
  · simp [onlocaltrack, lookupTrack_objDelete]
  · simp [onlocaltrack]
    exact countKey_objInsert_of_absent _ _ _ (countKey_objDelete _ _)
  · simp [onremotetrack, lookupTrack_objDelete]
  · simp [onremotetrack]
    exact countKey_objInsert_of_absent _ _ _ (countKey_objDelete _ _)

/-- Claim C6: in a run of n consecutive session-creation failures the
scheduled retries are exactly min n 3 of them, each with the
configured 5000 ms delay: initialization is retried at most 3 times,
and no failure after the 3rd schedules any further retry. -/
theorem c6_session_retry_bound (n : Nat) :
    retriesInRun n 0 =
      List.replicate (min n MAX_RECONNECT_ATTEMPTS) RECONNECT_DELAY := by
  match n with
  | 0 => rfl
  | 1 => rfl
  | 2 => rfl
  | 3 => rfl
  | m + 4 =>
    have h3 : min (m + 4) MAX_RECONNECT_ATTEMPTS = 3 := by
      simp only [MAX_RECONNECT_ATTEMPTS]
      omega
    rw [h3]
    simp [retriesInRun, janusErrorStep, MAX_RECONNECT_ATTEMPTS,
      RECONNECT_DELAY, List.replicate]

/-! ## Helper lemmas for the send retry loop -/

theorem sendRun_length_le (throws : Nat → Bool) (message : WebViewMessage) :
    ∀ retryCount idx,
      (sendRun throws message idx retryCount).length ≤ retryCount + 1 := by
  intro retryCount
  induction retryCount with
  | zero => intro idx; simp [sendRun]
  | succ r ih =>
    intro idx
    by_cases h : throws idx = true
    · simpa [sendRun, h] using ih (idx + 1)
    · simp [sendRun, h]

theorem sendRun_message_eq (throws : Nat → Bool) (message : WebViewMessage) :
    ∀ retryCount idx a, a ∈ sendRun throws message idx retryCount →
      a.message = message := by
  intro retryCount
  induction retryCount with
  | zero =>
    intro idx a ha
    simp [sendRun] at ha
    simp [ha]
  | succ r ih =>
    intro idx a ha
    by_cases h : throws idx = true <;> simp [sendRun, h] at ha
    · rcases ha with ha | ha
      · simp [ha]
      · exact ih (idx + 1) a ha
    · simp [ha]

theorem sendRun_delay_eq (throws : Nat → Bool) (message : WebViewMessage) :
    ∀ retryCount idx, 1 ≤ idx →
      ∀ a ∈ sendRun throws message idx retryCount, a.delay = 1000 := by
  intro retryCount
  induction retryCount with
  | zero =>
    intro idx hidx a ha
    simp [sendRun] at ha
    simp [ha]
    omega
  | succ r ih =>
    intro idx hidx a ha
    by_cases h : throws idx = true <;> simp [sendRun, h] at ha
    · rcases ha with ha | ha
      · simp [ha]; omega
      · exact ih (idx + 1) (by omega) a ha
    · simp [ha]
      omega

theorem sendRun_length_of_all_throw (throws : Nat → Bool)
    (message : WebViewMessage) (hall : ∀ i, throws i = true) :
    ∀ retryCount idx,
      (sendRun throws message idx retryCount).length = retryCount + 1 := by
  intro retryCount
  induction retryCount with
  | zero => intro idx; simp [sendRun]
  | succ r ih =>
    intro idx
    simp [sendRun, hall idx, ih (idx + 1)]

/-- Claim C7: a message whose container delivery throws is retried at
most 3 times (total attempts at most 4), each retry after a 1000 ms
delay, with the identical message object passed to every attempt; when
every delivery throws, exactly 3 retries happen and the message is
then dropped (the trace ends). -/
theorem c7_send_retry_bound (throws : Nat → Bool) (message : WebViewMessage) :
    (sendToWebViewParent throws message).length ≤ 4 ∧
    (∀ a ∈ sendToWebViewParent throws message, a.message = message) ∧
    (∀ a ∈ (sendToWebViewParent throws message).drop 1, a.delay = 1000) ∧
    ((∀ i, throws i = true) →
      (sendToWebViewParent throws message).length = 4) := by
  refine ⟨sendRun_length_le throws message 3 0,
    fun a ha => sendRun_message_eq throws message 3 0 a ha, ?_, ?_⟩
  · intro a ha
    rw [sendToWebViewParent, sendRun] at ha
    by_cases h : throws 0 = true <;> simp [h] at ha
    exact sendRun_delay_eq throws message 2 1 (by omega) a ha
  · intro hall
    exact sendRun_length_of_all_throw throws message hall 3 0

/-- Witness for C7 on an always-throwing delivery of a concrete
message: the bound holds and the inner all-throw hypothesis is
discharged, giving exactly 4 attempts. -/
theorem c7_send_retry_bound_witness :
    (sendToWebViewParent (fun _ => true) ⟨"JANUS_READY", {}⟩).length ≤ 4 ∧
    (sendToWebViewParent (fun _ => true) ⟨"JANUS_READY", {}⟩).length = 4 :=
  ⟨(c7_send_retry_bound (fun _ => true) ⟨"JANUS_READY", {}⟩).1,
   (c7_send_retry_bound (fun _ => true) ⟨"JANUS_READY", {}⟩).2.2.2
     fun _ => rfl⟩

/-- Claim C8: handleUnregister in a state with no plugin handle or not
registered sends nothing, changes nothing, and repeating it is still a
no-op. -/
theorem c8_unregister_noop (s : AppState)
    (h : s.sipPlugin = false ∨ s.isRegistered = false) :
    handleUnregister s = (s, [], []) ∧
    handleUnregister ((handleUnregister s).1) = (s, [], []) := by
  have h1 : handleUnregister s = (s, [], []) := by
    rcases h with h | h <;> simp [handleUnregister, h]
  exact ⟨h1, by rw [h1]; exact h1⟩

/-- Witness for C8 at the initial state. -/
theorem c8_unregister_noop_witness :
    handleUnregister {} = ({}, [], []) ∧
    handleUnregister ((handleUnregister {}).1) = ({}, [], []) :=
  c8_unregister_noop {} (Or.inl rfl)

/-- Claim C9 counterexample: a plugin message with event "hangup" and
no error leaves the call state at "ended", not at the event-name
string, so the call state is not always the reported event name
verbatim. -/
theorem c9_hangup_counterexample :
    (handleSipMessage {} { result := some { event := some "hangup" } }
        none (.ok ())).1.callState = "ended" ∧
    (handleSipMessage {} { result := some { event := some "hangup" } }
        none (.ok ())).1.callState ≠ "hangup" := by
  constructor <;> decide

/-- Claim C9 as amended: for every plugin message with a populated
event name and no error, handleSipMessage sets the call state to the
event-name string verbatim — any name, with no whitelist — except for
the event name "hangup", for which the resulting call state is
"ended". -/
theorem c9_event_name_sets_state (s : AppState) (msg : SipMsg)
    (jsep : Option JSEP) (jsepOutcome : Except String Unit) (e : String)
    (hev : (msg.result.bind fun r => r.event) = some e)
    (herr : msg.error = none) :
    (handleSipMessage s msg jsep jsepOutcome).1.callState =
      if e = "hangup" then "ended" else e := by
  simp only [handleSipMessage, hev, herr]
  split <;> simp_all
  split <;> rfl

/-- Witness for C9 (amended) at a concrete event name outside the
enumerated call-state variants. -/
theorem c9_event_name_sets_state_witness :
    (handleSipMessage {} { result := some { event := some "totally_new" } }
        none (.ok ())).1.callState =
      if "totally_new" = "hangup" then "ended" else "totally_new" :=
  c9_event_name_sets_state {} { result := some { event := some "totally_new" } }
    none (.ok ()) "totally_new" rfl rfl

/-- Claim C10: with a plugin attached, a non-empty phone number, and a
stored proxy that is absent or lacks the "sip:" delimiter, the call
request is still sent, its uri is "sip:" ++ number ++ "\x40undefined",
and the only host message posted is CALL_INITIATED — no error is
reported for the missing proxy. -/
theorem c10_missing_proxy_domain_undefined (s : AppState) (n : String)
    (hplugin : s.sipPlugin = true) (hn : n ≠ "")
    (hproxy : s.sipCredentials.proxy = none ∨
      ∃ p, s.sipCredentials.proxy = some p ∧ (jsSplit p "sip:").length = 1) :
    ((makeCall s (some n) (.ok ())).2.2).map PluginRequest.uri? =
      [some ("sip:" ++ n ++ "@undefined")] ∧
    ((makeCall s (some n) (.ok ())).2.1).map WebViewMessage.tag =
      ["CALL_INITIATED"] := by
  have hdom : proxyDomain s.sipCredentials.proxy = none := by
    rcases hproxy with h | ⟨p, hp, hlen⟩
    · simp [proxyDomain, h]
    · simp [proxyDomain, hp, List.get?_eq_none, hlen]
  constructor
  · simp [makeCall, hplugin, jsFalsyStr, hn, hdom, jsStr, PluginRequest.uri?]
    rw [String.append_assoc]
    rfl
  · simp [makeCall, hplugin, jsFalsyStr, hn, hdom, WebViewMessage.tag]

/-- Witness for C10 with no stored proxy at all. -/
theorem c10_missing_proxy_domain_undefined_witness :
    ((makeCall { sipPlugin := true } (some "5551234") (.ok ())).2.2).map
        PluginRequest.uri? = [some ("sip:" ++ "5551234" ++ "@undefined")] ∧
    ((makeCall { sipPlugin := true } (some "5551234") (.ok ())).2.1).map
        WebViewMessage.tag = ["CALL_INITIATED"] :=
  c10_missing_proxy_domain_undefined { sipPlugin := true } "5551234" rfl
    (by simp) (Or.inl rfl)

end JanusWrapper
